import Mathlib

/-
Verification of the media info/download HTTP service (src/main.py).

The service delegates extraction to an external engine (yt_dlp) and byte
fetching to an external HTTP client (requests).  Both are modelled as
oracle functions passed in as parameters:
  extract : String -> Except String ExtractInfo   (ydl.extract_info; .error e = raised exception with message e)
  fetch   : String -> Except String Nat           (requests.get; .ok s = response with status code s,
                                                   .error e = timeout / connection exception)
Everything else is translated directly from src/main.py.
-/

namespace Insta

/-- A media entry as reported by the extraction engine: an optional title
(absent key and present-but-None both map to none; the empty string is a
present falsy value), an optional integer duration in seconds, and an
optional direct media URL (absent means entry["url"] raises KeyError). -/
structure Entry where
  title : Option String
  duration : Option Int
  url : Option String
deriving Repr, DecidableEq

/-- The dict returned by ydl.extract_info: it may carry an "entries" key
(some list, possibly empty; a present-but-falsy value such as None or []
is modelled as some []), and the dict itself also carries the media
fields of a single post, modelled by the field single. -/
structure ExtractInfo where
  entries : Option (List Entry)
  single : Entry
deriving Repr, DecidableEq

/-- Python `x or y` where x is an optional string: None and the empty
string are falsy and yield the fallback. -/
def pyOrString (t : Option String) (fallback : String) : String :=
  match t with
  | none => fallback
  | some s => if s = "" then fallback else s

/-- Python ASCII whitespace characters stripped by str.strip(). -/
def isPyWhitespace (c : Char) : Bool :=
  c = ' ' || c = '\t' || c = '\n' || c = '\r' || c = '\x0b' || c = '\x0c'

/-- Python str.strip(): drop leading and trailing whitespace. -/
def pyStrip (s : String) : String :=
  ⟨((s.data.dropWhile isPyWhitespace).reverse.dropWhile isPyWhitespace).reverse⟩

/-- Uppercase hexadecimal digit for a value below 16. -/
def hexDigit (n : Nat) : Char :=
  if n < 10 then Char.ofNat (48 + n) else Char.ofNat (55 + n)

/-- Percent-encoding of one byte, as urllib.parse.quote produces it. -/
def percentByte (b : Nat) : String :=
  "%" ++ String.mk [hexDigit (b / 16), hexDigit (b % 16)]

/-- The bytes urllib.parse.quote never encodes (ALWAYS_SAFE):
ASCII letters, digits, and the characters _ . - ~ .  With safe set to the
empty string, every other byte is percent-encoded. -/
def isAlwaysSafe (b : Nat) : Bool :=
  (decide (65 ≤ b) && decide (b ≤ 90)) ||
  (decide (97 ≤ b) && decide (b ≤ 122)) ||
  (decide (48 ≤ b) && decide (b ≤ 57)) ||
  decide (b = 95) || decide (b = 46) || decide (b = 45) || decide (b = 126)

/-- UTF-8 encoding of a single character as a list of byte values. -/
def utf8Bytes (c : Char) : List Nat :=
  let n := c.toNat
  if n < 128 then [n]
  else if n < 2048 then [192 + n / 64, 128 + n % 64]
  else if n < 65536 then [224 + n / 4096, 128 + (n / 64) % 64, 128 + n % 64]
  else [240 + n / 262144, 128 + (n / 4096) % 64, 128 + (n / 64) % 64, 128 + n % 64]

/-- urllib.parse.quote with an empty safe set: UTF-8 encode the string and
percent-encode every byte outside ALWAYS_SAFE. -/
def pyQuote (s : String) : String :=
  String.join (((s.data.map utf8Bytes).flatten).map
    (fun b => if isAlwaysSafe b then String.singleton (Char.ofNat b) else percentByte b))

/-- Python f-string format spec 02d: pad the decimal representation with a
leading zero when it is shorter than two characters. -/
def zfill2 (n : Int) : String :=
  let s := toString n
  if s.length < 2 then "0" ++ s else s

/-- Translation of main.py _format_duration: None maps to the empty string,
otherwise divmod(seconds, 60) (Python floor division and modulo) rendered
as the minutes, a colon, and the seconds zero-padded to two digits. -/
def format_duration : Option Int → String
  | none => ""
  | some seconds => toString (Int.fdiv seconds 60) ++ ":" ++ zfill2 (Int.fmod seconds 60)

/-- Response item model VideoItem from main.py. -/
structure VideoItem where
  index : Nat
  title : String
  duration : String
  download_url : String
deriving Repr, DecidableEq

/-- Response model InfoResponse from main.py. -/
structure InfoResponse where
  ok : Bool
  message : Option String
  items : List VideoItem
  input_url : String
deriving Repr, DecidableEq

/-- An HTTP reply of the info endpoint: FastAPI status code plus body. -/
structure InfoReply where
  status : Nat
  body : InfoResponse
deriving Repr, DecidableEq

/-- Translation of the build closure inside get_info: one VideoItem from an
engine entry and its index, with the title fallback and the download_url
built from the percent-encoded source url. -/
def build (url : String) (entry : Entry) (idx : Nat) : VideoItem :=
  { index := idx
    title := pyOrString entry.title ("Clip " ++ toString (idx + 1))
    duration := format_duration entry.duration
    download_url := "/api/download?url=" ++ pyQuote url ++ "&index=" ++ toString idx }

/-- The enumerate loop of get_info: build one item per entry, indices
increasing from the accumulator. -/
def buildItems (url : String) : Nat → List Entry → List VideoItem
  | _, [] => []
  | i, e :: es => build url e i :: buildItems url (i + 1) es

/-- Translation of the get_info endpoint (POST /api/info): strip the input
url, run extraction; on any engine failure answer ok=false with the fixed
message; on success build the item list, from the entries list when the
"entries" key is present and truthy, else from the info dict itself.
FastAPI returns status 200 in every branch. -/
def get_info (extract : String → Except String ExtractInfo) (payloadUrl : String) : InfoReply :=
  let url := pyStrip payloadUrl
  match extract url with
  | Except.error _ =>
      { status := 200
        body := { ok := false, message := some "Invalid or unsupported URL", items := [], input_url := url } }
  | Except.ok info =>
      let items :=
        match info.entries with
        | some es => if es.isEmpty then [build url info.single 0] else buildItems url 0 es
        | none => [build url info.single 0]
      { status := 200
        body := { ok := true, message := none, items := items, input_url := url } }

/-- Python list subscription with an Int index: a negative index counts
from the end; an index out of the range [-len, len) raises IndexError,
modelled as none. -/
def pyListGet {α : Type} (xs : List α) (i : Int) : Option α :=
  let n : Int := xs.length
  let j : Int := if i < 0 then n + i else i
  if 0 ≤ j ∧ j < n then xs.get? j.toNat else none

/-- Entry selection in the download endpoint: info["entries"][index] when
the "entries" key is present (even when the list is empty), else the info
dict itself; the index is then unused. -/
def selectEntry (info : ExtractInfo) (index : Int) : Option Entry :=
  match info.entries with
  | some es => pyListGet es index
  | none => some info.single

/-- Python str.replace of single spaces by underscores. -/
def replaceSpaces (s : String) : String :=
  ⟨s.data.map (fun c => if c = ' ' then '_' else c)⟩

/-- The attachment filename of the download endpoint: the title, or the
fallback when the title is falsy, spaces replaced by underscores, plus the
.mp4 suffix. -/
def mkFilename (t : Option String) : String :=
  replaceSpaces (pyOrString t "instagram_video") ++ ".mp4"

/-- Observable outcome of the download endpoint: a streaming response (the
upstream direct url identifies the streamed bytes) with its media type and
headers, or the JSON failure reply with its HTTP status and body fields. -/
inductive DownloadOutcome where
  | stream (sourceUrl : String) (mediaType : String) (contentDisposition : String) (cacheControl : String)
  | failure (status : Nat) (okFlag : Bool) (message : String) (error : String)
deriving Repr, DecidableEq

/-- Translation of the download endpoint (GET /api/download): extract, pick
the entry, read its direct url, fetch it with a 20 second timeout, reject a
non-200 upstream status, else stream with the attachment headers.  Every
raised exception is caught and converted to the status-400 JSON body with
ok False, the fixed message, and the exception description. -/
def download (extract : String → Except String ExtractInfo)
    (fetch : String → Except String Nat) (url : String) (index : Int) : DownloadOutcome :=
  match extract url with
  | Except.error e => DownloadOutcome.failure 400 false "Download failed" e
  | Except.ok info =>
    match selectEntry info index with
    | none => DownloadOutcome.failure 400 false "Download failed" "list index out of range"
    | some entry =>
      match entry.url with
      | none => DownloadOutcome.failure 400 false "Download failed" "KeyError: url"
      | some direct_url =>
        match fetch direct_url with
        | Except.error e => DownloadOutcome.failure 400 false "Download failed" e
        | Except.ok status =>
          if status ≠ 200 then
            DownloadOutcome.failure 400 false "Download failed" ("CDN error: " ++ toString status)
          else
            DownloadOutcome.stream direct_url "video/mp4"
              ("attachment; filename=\"" ++ mkFilename entry.title ++ "\"") "no-cache"

/-
Helper lemmas shared by the claim theorems.
-/

/-- buildItems produces one item per entry. -/
lemma buildItems_length (url : String) (i : Nat) (es : List Entry) :
    (buildItems url i es).length = es.length := by
  induction es generalizing i with
  | nil => rfl
  | cons a as ih => simp [buildItems, ih]

/-- The index field of the k-th built item is the accumulator plus k. -/
lemma buildItems_index (url : String) (es : List Entry) :
    ∀ (i k : Nat) (h : k < (buildItems url i es).length),
      ((buildItems url i es).get ⟨k, h⟩).index = i + k := by
  induction es with
  | nil => intro i k h; simp [buildItems] at h
  | cons a as ih =>
    intro i k h
    cases k with
    | zero => simp [buildItems, build]
    | succ k =>
      have h' : k < (buildItems url (i + 1) as).length := by
        simpa [buildItems] using h
      have := ih (i + 1) k h'
      simpa [buildItems, Nat.add_assoc, Nat.add_comm 1 k] using this

/-- buildItems of a nonempty entry list is nonempty. -/
lemma buildItems_ne_nil (url : String) (i : Nat) (es : List Entry) (h : es ≠ []) :
    buildItems url i es ≠ [] := by
  cases es with
  | nil => exact absurd rfl h
  | cons a as => simp [buildItems]

/-- Python floor division agrees with Nat division on nonnegative
operands. -/
lemma fdiv_ofNat : ∀ (m n : Nat), Int.fdiv (Int.ofNat m) (Int.ofNat n) = Int.ofNat (m / n)
  | 0, n => by rw [Nat.zero_div]; exact rfl
  | Nat.succ _, _ => rfl

/-- Python floor modulo agrees with Nat modulo on nonnegative operands. -/
lemma fmod_ofNat : ∀ (m n : Nat), Int.fmod (Int.ofNat m) (Int.ofNat n) = Int.ofNat (m % n)
  | 0, n => by rw [Nat.zero_mod]; exact rfl
  | Nat.succ _, _ => rfl

/-- Printing a nonnegative integer prints its natural value. -/
lemma toString_ofNat (n : Nat) : toString (Int.ofNat n) = toString n := rfl

/-- zfill2 on a natural number below 60 is the two-digit zero-padded
decimal representation. -/
lemma zfill2_small : ∀ n : Nat, n < 60 →
    zfill2 (Int.ofNat n) = if n < 10 then "0" ++ toString n else toString n := by
  decide

/-
Claim theorems.
-/

/-- Claim C5: the duration formatter maps an absent duration to the empty
string and s seconds to minutes, a colon, and the seconds zero-padded to
two digits, with no hour component; 0 maps to "0:00", 65 to "1:05", and
3661 to "61:01" (no hour rollover). -/
theorem durationFormatSpec :
    format_duration none = "" ∧
    (∀ s : Nat, format_duration (some (s : Int)) =
      toString (s / 60) ++ ":" ++
        (if s % 60 < 10 then "0" ++ toString (s % 60) else toString (s % 60))) ∧
    format_duration (some 0) = "0:00" ∧
    format_duration (some 65) = "1:05" ∧
    format_duration (some 3661) = "61:01" := by
  refine ⟨rfl, ?_, by decide, by decide, by decide⟩
  intro s
  have e0 : format_duration (some (s : Int)) =
      toString (Int.fdiv (Int.ofNat s) (Int.ofNat 60)) ++ ":" ++
        zfill2 (Int.fmod (Int.ofNat s) (Int.ofNat 60)) := rfl
  rw [e0, fdiv_ofNat, fmod_ofNat, toString_ofNat,
    zfill2_small (s % 60) (Nat.mod_lt s (by norm_num))]

/-- Claim C6: the download_url built by the info operation is the relative
path /api/download?url=<u>&index=<i> with the source url percent-encoded
(all reserved characters encoded); for https://x.com/p/1 at index 2 it is
exactly /api/download?url=https%3A%2F%2Fx.com%2Fp%2F1&index=2. -/
theorem downloadUrlConstruction :
    (∀ (url : String) (e : Entry) (i : Nat),
      (build url e i).download_url =
        "/api/download?url=" ++ pyQuote url ++ "&index=" ++ toString i) ∧
    (build "https://x.com/p/1" ⟨some "t", some 10, some "d"⟩ 2).download_url =
      "/api/download?url=https%3A%2F%2Fx.com%2Fp%2F1&index=2" := by
  exact ⟨fun _ _ _ => rfl, by decide⟩

/-- Claim C7: when the engine-reported title is absent or empty, the built
item's title is "Clip " followed by the 1-based position i + 1. -/
theorem titleFallback (url : String) (e : Entry) (i : Nat)
    (h : e.title = none ∨ e.title = some "") :
    (build url e i).title = "Clip " ++ toString (i + 1) := by
  rcases h with h | h <;> simp [build, pyOrString, h]

/-- Witness for titleFallback at a concrete entry with an empty title. -/
theorem titleFallbackWitness :
    (build "u" ⟨some "", none, none⟩ 4).title = "Clip " ++ toString (4 + 1) :=
  titleFallback "u" ⟨some "", none, none⟩ 4 (Or.inr rfl)

/-- Claim C2: on any extraction failure the info operation answers status
200 with ok false, the fixed message, empty items, and the trimmed input
url. -/
theorem infoExtractionFailure (extract : String → Except String ExtractInfo) (u e : String)
    (h : extract (pyStrip u) = Except.error e) :
    get_info extract u =
      ⟨200, ⟨false, some "Invalid or unsupported URL", [], pyStrip u⟩⟩ := by
  simp [get_info, h]

/-- Witness for infoExtractionFailure on a concrete always-failing engine
and an input with surrounding whitespace. -/
theorem infoExtractionFailureWitness :
    get_info (fun _ => Except.error "boom") " x " =
      ⟨200, ⟨false, some "Invalid or unsupported URL", [], pyStrip " x "⟩⟩ :=
  infoExtractionFailure (fun _ => Except.error "boom") " x " "boom" rfl

/-- Claim C3: in every info result, ok false forces an empty item list and
ok true forces a nonempty one. -/
theorem infoOkItemsInvariant (extract : String → Except String ExtractInfo) (u : String) :
    ((get_info extract u).body.ok = false → (get_info extract u).body.items = []) ∧
    ((get_info extract u).body.ok = true → (get_info extract u).body.items ≠ []) := by
  cases h : extract (pyStrip u) with
  | error e => simp [get_info, h]
  | ok info =>
    cases hE : info.entries with
    | none => simp [get_info, h, hE]
    | some es =>
      cases es with
      | nil => simp [get_info, h, hE]
      | cons a as => simp [get_info, h, hE, buildItems]

/-- Witness for infoOkItemsInvariant: a failing engine yields empty
items. -/
theorem infoOkItemsInvariantWitness :
    (get_info (fun _ => Except.error "x") "u").body.items = [] :=
  (infoOkItemsInvariant (fun _ => Except.error "x") "u").1 rfl

/-- On a successful extraction, the items of the info reply are built from
the entries list when it is present and nonempty, else from the info dict
itself. -/
lemma get_info_items (extract : String → Except String ExtractInfo) (u : String)
    (info : ExtractInfo) (h : extract (pyStrip u) = Except.ok info) :
    (get_info extract u).body.items =
      match info.entries with
      | some es =>
          if es.isEmpty then [build (pyStrip u) info.single 0]
          else buildItems (pyStrip u) 0 es
      | none => [build (pyStrip u) info.single 0] := by
  simp [get_info, h]

/-- Unfolding of the download endpoint on the all-success path. -/
lemma download_eq_stream (extract : String → Except String ExtractInfo)
    (fetch : String → Except String Nat) (url : String) (index : Int)
    (info : ExtractInfo) (entry : Entry) (du : String)
    (h1 : extract url = Except.ok info) (h2 : selectEntry info index = some entry)
    (h3 : entry.url = some du) (h4 : fetch du = Except.ok 200) :
    download extract fetch url index =
      DownloadOutcome.stream du "video/mp4"
        ("attachment; filename=\"" ++ mkFilename entry.title ++ "\"") "no-cache" := by
  simp [download, h1, h2, h3, h4]

/-- Python subscription with a negative index in range counts from the
end of the list. -/
lemma pyListGet_neg {α : Type} (xs : List α) (i : Int)
    (h1 : -(xs.length : Int) ≤ i) (h2 : i < 0) :
    pyListGet xs i = xs.get? ((xs.length : Int) + i).toNat := by
  simp only [pyListGet]
  rw [if_pos h2, if_pos ⟨by omega, by omega⟩]

/-- Modelled from the claim's words of C4: the number of entries reported
by the extraction engine, namely the length of the reported entries list
when one is present, else one (a single media item). -/
def specReportedEntryCount (info : ExtractInfo) : Nat :=
  match info.entries with
  | some es => es.length
  | none => 1

/-- Claim C4 counterexample: an engine result carrying a present but empty
entries list resolves successfully, yet get_info builds one item while the
engine reported zero entries. -/
theorem infoItemsCountCounterexample :
    (get_info (fun _ => Except.ok ⟨some [], ⟨none, none, none⟩⟩) "u").body.ok = true ∧
    (get_info (fun _ => Except.ok ⟨some [], ⟨none, none, none⟩⟩) "u").body.items.length = 1 ∧
    specReportedEntryCount ⟨some [], ⟨none, none, none⟩⟩ = 0 := by
  refine ⟨rfl, rfl, rfl⟩

/-- Claim C4 amended: for every successful resolution, when the engine
reports a nonempty entries list the items list has that list's length, and
when the engine reports no entries key, or an entries value that is empty
(falsy), the items list has exactly one item built from the info dict
itself; in every case each item's index equals its position in the list,
0-based, contiguous, with no gaps. -/
theorem infoItemsCountAmended (extract : String → Except String ExtractInfo)
    (u : String) (info : ExtractInfo) (h : extract (pyStrip u) = Except.ok info) :
    (∀ es, info.entries = some es → es ≠ [] →
      (get_info extract u).body.items.length = es.length) ∧
    ((info.entries = none ∨ info.entries = some []) →
      (get_info extract u).body.items.length = 1) ∧
    (∀ k (hk : k < (get_info extract u).body.items.length),
      ((get_info extract u).body.items.get ⟨k, hk⟩).index = k) := by
  have hit := get_info_items extract u info h
  refine ⟨?_, ?_, ?_⟩
  · intro es hE hne
    rw [hit, hE]
    cases es with
    | nil => exact absurd rfl hne
    | cons a as => simp [buildItems_length]
  · rintro (hE | hE) <;> rw [hit, hE] <;> rfl
  · intro k hk
    revert hk
    rw [hit]
    cases hE : info.entries with
    | none =>
      intro hk
      have hk1 : k < 1 := by simpa using hk
      interval_cases k
      rfl
    | some es =>
      cases es with
      | nil =>
        intro hk
        have hk1 : k < 1 := by simpa using hk
        interval_cases k
        rfl
      | cons a as =>
        intro hk
        have := buildItems_index (pyStrip u) (a :: as) 0 k (by simpa using hk)
        simpa using this

/-- Witness for infoItemsCountAmended on a two-entry carousel. -/
theorem infoItemsCountAmendedWitness :
    (∀ es, (ExtractInfo.mk (some [Entry.mk (some "A") none none,
        Entry.mk (some "B") none none]) ⟨none, none, none⟩).entries = some es → es ≠ [] →
      (get_info (fun _ => Except.ok ⟨some [Entry.mk (some "A") none none,
        Entry.mk (some "B") none none], ⟨none, none, none⟩⟩) "u").body.items.length = es.length) ∧
    (((ExtractInfo.mk (some [Entry.mk (some "A") none none,
        Entry.mk (some "B") none none]) ⟨none, none, none⟩).entries = none ∨
      (ExtractInfo.mk (some [Entry.mk (some "A") none none,
        Entry.mk (some "B") none none]) ⟨none, none, none⟩).entries = some []) →
      (get_info (fun _ => Except.ok ⟨some [Entry.mk (some "A") none none,
        Entry.mk (some "B") none none], ⟨none, none, none⟩⟩) "u").body.items.length = 1) ∧
    (∀ k (hk : k < (get_info (fun _ => Except.ok ⟨some [Entry.mk (some "A") none none,
        Entry.mk (some "B") none none], ⟨none, none, none⟩⟩) "u").body.items.length),
      ((get_info (fun _ => Except.ok ⟨some [Entry.mk (some "A") none none,
        Entry.mk (some "B") none none], ⟨none, none, none⟩⟩) "u").body.items.get ⟨k, hk⟩).index = k) :=
  infoItemsCountAmended (fun _ => Except.ok ⟨some [Entry.mk (some "A") none none,
    Entry.mk (some "B") none none], ⟨none, none, none⟩⟩) "u"
    ⟨some [Entry.mk (some "A") none none, Entry.mk (some "B") none none], ⟨none, none, none⟩⟩ rfl

/-- Claim C1: whenever resolution fails, the index is out of range of the
resolved entry list, the upstream fetch raises (timeout), or it returns a
non-200 status, the download operation answers the structured JSON body
with ok false, the fixed message and an error description, at HTTP status
400, and no byte stream is delivered. -/
theorem downloadFailureStructured (extract : String → Except String ExtractInfo)
    (fetch : String → Except String Nat) (url : String) (index : Int)
    (h : (∃ e, extract url = Except.error e) ∨
      (∃ info, extract url = Except.ok info ∧ selectEntry info index = none) ∨
      (∃ info entry du e, extract url = Except.ok info ∧
        selectEntry info index = some entry ∧ entry.url = some du ∧
        fetch du = Except.error e) ∨
      (∃ info entry du s, extract url = Except.ok info ∧
        selectEntry info index = some entry ∧ entry.url = some du ∧
        fetch du = Except.ok s ∧ s ≠ 200)) :
    (∃ err, download extract fetch url index =
      DownloadOutcome.failure 400 false "Download failed" err) ∧
    (∀ su mt cd cc, download extract fetch url index ≠
      DownloadOutcome.stream su mt cd cc) := by
  have key : ∃ err, download extract fetch url index =
      DownloadOutcome.failure 400 false "Download failed" err := by
    rcases h with ⟨e, h1⟩ | ⟨info, h1, h2⟩ |
      ⟨info, entry, du, e, h1, h2, h3, h4⟩ | ⟨info, entry, du, s, h1, h2, h3, h4, h5⟩
    · exact ⟨e, by simp [download, h1]⟩
    · exact ⟨"list index out of range", by simp [download, h1, h2]⟩
    · exact ⟨e, by simp [download, h1, h2, h3, h4]⟩
    · exact ⟨"CDN error: " ++ toString s, by simp [download, h1, h2, h3, h4, h5]⟩
  refine ⟨key, ?_⟩
  obtain ⟨err, he⟩ := key
  intro su mt cd cc
  rw [he]
  simp

/-- Witness for downloadFailureStructured: a failing extraction engine. -/
theorem downloadFailureStructuredWitness :
    (∃ err, download (fun _ => Except.error "no formats found")
        (fun _ => Except.ok 200) "u" 0 =
      DownloadOutcome.failure 400 false "Download failed" err) ∧
    (∀ su mt cd cc, download (fun _ => Except.error "no formats found")
        (fun _ => Except.ok 200) "u" 0 ≠
      DownloadOutcome.stream su mt cd cc) :=
  downloadFailureStructured _ _ _ _ (Or.inl ⟨"no formats found", rfl⟩)

/-- Claim C9: when the extraction result has no entries key, the index
query parameter is ignored entirely: selection yields the single item for
every integer index, the outcome equals the outcome at index 0, and on a
successful upstream fetch the single item is streamed. -/
theorem singleItemIndexIgnored (extract : String → Except String ExtractInfo)
    (fetch : String → Except String Nat) (url : String) (index : Int)
    (info : ExtractInfo) (h1 : extract url = Except.ok info)
    (h2 : info.entries = none) :
    selectEntry info index = some info.single ∧
    download extract fetch url index = download extract fetch url 0 ∧
    (∀ du, info.single.url = some du → fetch du = Except.ok 200 →
      download extract fetch url index =
        DownloadOutcome.stream du "video/mp4"
          ("attachment; filename=\"" ++ mkFilename info.single.title ++ "\"") "no-cache") := by
  have hsel : ∀ i : Int, selectEntry info i = some info.single := by
    intro i
    simp [selectEntry, h2]
  refine ⟨hsel index, ?_, ?_⟩
  · simp [download, h1, hsel]
  · intro du h3 h4
    exact download_eq_stream extract fetch url index info info.single du h1 (hsel index) h3 h4

/-- Witness for singleItemIndexIgnored at index 7 on a single post. -/
theorem singleItemIndexIgnoredWitness :
    selectEntry ⟨none, ⟨some "t", none, some "cdn"⟩⟩ 7 = some ⟨some "t", none, some "cdn"⟩ ∧
    download (fun _ => Except.ok ⟨none, ⟨some "t", none, some "cdn"⟩⟩)
        (fun _ => Except.ok 200) "u" 7 =
      download (fun _ => Except.ok ⟨none, ⟨some "t", none, some "cdn"⟩⟩)
        (fun _ => Except.ok 200) "u" 0 ∧
    (∀ du, (Entry.mk (some "t") none (some "cdn")).url = some du →
      (fun (_ : String) => Except.ok (ε := String) 200) du = Except.ok 200 →
      download (fun _ => Except.ok ⟨none, ⟨some "t", none, some "cdn"⟩⟩)
          (fun _ => Except.ok 200) "u" 7 =
        DownloadOutcome.stream du "video/mp4"
          ("attachment; filename=\"" ++ mkFilename (some "t") ++ "\"") "no-cache") :=
  singleItemIndexIgnored (fun _ => Except.ok ⟨none, ⟨some "t", none, some "cdn"⟩⟩)
    (fun _ => Except.ok 200) "u" 7 ⟨none, ⟨some "t", none, some "cdn"⟩⟩ rfl rfl

/-- Claim C10: when the extraction result has a nonempty entries list of
length n and the index is negative but at least -n, selection does not
fail: the entry at position n + index is selected, and on a successful
upstream fetch that entry is streamed. -/
theorem negativeIndexSelectsFromEnd (extract : String → Except String ExtractInfo)
    (fetch : String → Except String Nat) (url : String) (index : Int)
    (info : ExtractInfo) (es : List Entry)
    (h1 : extract url = Except.ok info) (h2 : info.entries = some es)
    (h3 : -(es.length : Int) ≤ index) (h4 : index < 0) :
    ∃ entry, es.get? ((es.length : Int) + index).toNat = some entry ∧
      selectEntry info index = some entry ∧
      (∀ du, entry.url = some du → fetch du = Except.ok 200 →
        download extract fetch url index =
          DownloadOutcome.stream du "video/mp4"
            ("attachment; filename=\"" ++ mkFilename entry.title ++ "\"") "no-cache") := by
  have hk : ((es.length : Int) + index).toNat < es.length := by omega
  obtain ⟨entry, hget⟩ : ∃ entry, es.get? ((es.length : Int) + index).toNat = some entry :=
    ⟨es.get ⟨((es.length : Int) + index).toNat, hk⟩, List.get?_eq_get hk⟩
  have hsel : selectEntry info index = some entry := by
    rw [selectEntry, h2]
    show pyListGet es index = some entry
    rw [pyListGet_neg es index h3 h4, hget]
  exact ⟨entry, hget, hsel, fun du h5 h6 =>
    download_eq_stream extract fetch url index info entry du h1 hsel h5 h6⟩

/-- Witness for negativeIndexSelectsFromEnd: index -1 on a two-entry
carousel selects the second entry. -/
theorem negativeIndexSelectsFromEndWitness :
    ∃ entry, [Entry.mk (some "A") none (some "cdnA"),
        Entry.mk (some "B") none (some "cdnB")].get?
        ((([Entry.mk (some "A") none (some "cdnA"),
            Entry.mk (some "B") none (some "cdnB")].length : Int) + (-1)).toNat) = some entry ∧
      selectEntry ⟨some [Entry.mk (some "A") none (some "cdnA"),
        Entry.mk (some "B") none (some "cdnB")], ⟨none, none, none⟩⟩ (-1) = some entry ∧
      (∀ du, entry.url = some du →
        (fun (_ : String) => Except.ok (ε := String) 200) du = Except.ok 200 →
        download (fun _ => Except.ok ⟨some [Entry.mk (some "A") none (some "cdnA"),
            Entry.mk (some "B") none (some "cdnB")], ⟨none, none, none⟩⟩)
            (fun _ => Except.ok 200) "u" (-1) =
          DownloadOutcome.stream du "video/mp4"
            ("attachment; filename=\"" ++ mkFilename entry.title ++ "\"") "no-cache") :=
  negativeIndexSelectsFromEnd
    (fun _ => Except.ok ⟨some [Entry.mk (some "A") none (some "cdnA"),
      Entry.mk (some "B") none (some "cdnB")], ⟨none, none, none⟩⟩)
    (fun _ => Except.ok 200) "u" (-1) _ _ rfl rfl (by decide) (by decide)

/-- Modelled from the claim's words of C8: the filename the claim
predicts, namely the entry's title with every space replaced by an
underscore followed by the .mp4 suffix, with the fallback name only when
the title is absent. -/
def specFilenameC8 : Option String → String
  | none => "instagram_video.mp4"
  | some t => replaceSpaces t ++ ".mp4"

/-- Claim C8 counterexample: a successful download of an entry whose title
is present but empty streams with the fallback filename
instagram_video.mp4, not the filename the claim's replacement rule
predicts for that title. -/
theorem downloadFilenameCounterexample :
    download (fun _ => Except.ok ⟨none, ⟨some "", none, some "cdn"⟩⟩)
        (fun _ => Except.ok 200) "u" 0 =
      DownloadOutcome.stream "cdn" "video/mp4"
        "attachment; filename=\"instagram_video.mp4\"" "no-cache" ∧
    "attachment; filename=\"instagram_video.mp4\"" ≠
      "attachment; filename=\"" ++ specFilenameC8 (some "") ++ "\"" := by
  refine ⟨rfl, by decide⟩

/-- Claim C8 amended: every successful download streams with media type
video/mp4, a Cache-Control no-cache header, and an attachment
Content-Disposition whose filename is the title with every space replaced
by an underscore followed by .mp4 when the title is present and nonempty,
and exactly instagram_video.mp4 when the title is absent or empty. -/
theorem downloadSuccessHeaders (extract : String → Except String ExtractInfo)
    (fetch : String → Except String Nat) (url : String) (index : Int)
    (info : ExtractInfo) (entry : Entry) (du : String)
    (h1 : extract url = Except.ok info) (h2 : selectEntry info index = some entry)
    (h3 : entry.url = some du) (h4 : fetch du = Except.ok 200) :
    download extract fetch url index =
      DownloadOutcome.stream du "video/mp4"
        ("attachment; filename=\"" ++ mkFilename entry.title ++ "\"") "no-cache" ∧
    (∀ t, entry.title = some t → t ≠ "" →
      mkFilename entry.title = replaceSpaces t ++ ".mp4") ∧
    ((entry.title = none ∨ entry.title = some "") →
      mkFilename entry.title = "instagram_video.mp4") := by
  refine ⟨download_eq_stream extract fetch url index info entry du h1 h2 h3 h4, ?_, ?_⟩
  · intro t ht hne
    rw [ht]
    simp [mkFilename, pyOrString, hne]
  · rintro (ht | ht) <;> rw [ht] <;> decide

/-- Witness for downloadSuccessHeaders on a title containing a space. -/
theorem downloadSuccessHeadersWitness :
    download (fun _ => Except.ok ⟨none, ⟨some "a b", none, some "cdn"⟩⟩)
        (fun _ => Except.ok 200) "u" 0 =
      DownloadOutcome.stream "cdn" "video/mp4"
        ("attachment; filename=\"" ++ mkFilename (some "a b") ++ "\"") "no-cache" ∧
    (∀ t, (Entry.mk (some "a b") none (some "cdn")).title = some t → t ≠ "" →
      mkFilename (some "a b") = replaceSpaces t ++ ".mp4") ∧
    (((Entry.mk (some "a b") none (some "cdn")).title = none ∨
      (Entry.mk (some "a b") none (some "cdn")).title = some "") →
      mkFilename (some "a b") = "instagram_video.mp4") :=
  downloadSuccessHeaders (fun _ => Except.ok ⟨none, ⟨some "a b", none, some "cdn"⟩⟩)
    (fun _ => Except.ok 200) "u" 0 ⟨none, ⟨some "a b", none, some "cdn"⟩⟩
    ⟨some "a b", none, some "cdn"⟩ "cdn" rfl rfl rfl rfl

end Insta
